import Mathlib

/-!
Shallow embedding of the `nuxt-background-removal` application
(src/components/CanvasPublisher.vue, src/pages/index.vue,
src/pages/videoRecorder.vue), together with theorems about the per-frame
compositing loop, its stop flag, the error paths of the initialization
chain, and the recorder page.
-/

namespace NuxtBackgroundRemoval

namespace CanvasPublisher

/-- The masking pass of `renderCanvas`
(src/components/CanvasPublisher.vue lines 143-147):

```
for (let i = 0; i < pixels.length; i += 4) {
    if (segmentation.data[i / 4] === 0) {
        pixels[i + 3] = 0
    }
}
```

`pixels` is the `Uint8ClampedArray` of the `ImageData` of the frame; `seg`
is the segmentation classification array `segmentation.data`.  JS
typed-array semantics: an out-of-bounds store is a no-op (`Array.setD`),
and `segmentation.data[i / 4] === 0` holds exactly when the read is in
bounds and yields `0` (an out-of-bounds read gives `undefined`, which is
not `=== 0`), i.e. `seg[i / 4]? = some 0`. -/
def maskLoop (seg : Array Nat) (pixels : Array Nat) (i : Nat) : Array Nat :=
  if h : i < pixels.size then
    maskLoop seg (if seg[i / 4]? = some 0 then pixels.setD (i + 3) 0 else pixels) (i + 4)
  else
    pixels
termination_by pixels.size - i
decreasing_by
  split
  · simp only [Array.size_setD]
    omega
  · omega

/-- The whole masking pass: the loop starts at index `0`. -/
def maskPixels (seg : Array Nat) (pixels : Array Nat) : Array Nat :=
  maskLoop seg pixels 0

/-- The index trace of the same `for` loop: the successive values taken by
the loop counter `i` (same guard `i < pixels.length`, same step `i += 4`).
Each listed value `i` stands for one iteration, which reads classification
entry `i / 4` and (possibly) writes pixel-buffer byte `i + 3`.  The buffer
size is constant throughout the loop (`maskLoop_size`), so it is a plain
parameter here. -/
def maskLoopIdxs (size : Nat) (i : Nat) : List Nat :=
  if h : i < size then i :: maskLoopIdxs size (i + 4) else []
termination_by size - i
decreasing_by omega

/-- What a compositing iteration draws onto the visible output canvas
(the two `drawImage` calls on `context`, lines 152-153): first the static
background image, then the clone canvas holding the masked frame. -/
inductive OutputDraw
  | backgroundImage
  | maskedFrame (pixels : Array Nat)
  deriving DecidableEq, Repr

/-- The parts of the browser environment the initialization chain consults:
`deviceKinds` are the `kind` fields of the devices returned by
`navigator.mediaDevices.enumerateDevices()`; the Booleans record whether
`getContext` on the output canvas returns a context, whether `getContext`
on the cloned canvas returns a context, and whether `this.backgroundImage`
is set. -/
structure Env where
  deviceKinds : List String
  canvasContext : Bool
  cloneContext : Bool
  backgroundImage : Bool
  deriving DecidableEq, Repr

/-- One frame of input to `renderCanvas`: the RGBA bytes the clone context
holds after `drawImage` / `getImageData` (lines 140-142), and the
classification array returned by `net.segmentPerson` (lines 133-137). -/
structure Frame where
  pixels : Array Nat
  segData : Array Nat
  deriving DecidableEq, Repr

/-- Function `renderCanvas` (lines 131-158): segments the current frame, masks the
alpha of background pixels in the clone buffer (`maskPixels`), writes the
buffer back with `putImageData`, throws when `this.backgroundImage` is
missing, otherwise draws the background image and then the masked clone
canvas onto the output context, and finally reads `processCanvas` to decide
whether to reschedule itself with a fixed 30 ms worker timer (lines
155-157).  The result is the list of draws performed on the output context
together with the reschedule delay in ms (if any), or the thrown error. -/
def renderCanvas (env : Env) (frame : Frame) (processCanvas : Bool) :
    Except String (List OutputDraw × Option Nat) :=
  let pixels := maskPixels frame.segData frame.pixels
  if env.backgroundImage then
    .ok ([.backgroundImage, .maskedFrame pixels],
      if processCanvas then some 30 else none)
  else
    .error "Unable to get background image"

/-- Function `startCanvasRendering` (lines 112-129): obtains the 2D context of the
output canvas (throwing when unavailable), loads the BodyPix model, clones
the canvas and obtains the 2D context of the clone (throwing when
unavailable), sets `processCanvas := true` and runs the first
`renderCanvas` iteration. -/
def startCanvasRendering (env : Env) (frame : Frame) :
    Except String (List OutputDraw × Option Nat) :=
  if env.canvasContext then
    if env.cloneContext then
      renderCanvas env frame true
    else
      .error "Unable to clone canvas context"
  else
    .error "Could not get canvas context to start canvas rendering"

/-- Function `initCanvasPublisher` (lines 77-110): enumerates media devices and
requires one of kind `videoinput` (throwing otherwise), acquires the camera
stream, waits for the hidden video element to play, then starts canvas
rendering. -/
def initCanvasPublisher (env : Env) (frame : Frame) :
    Except String (List OutputDraw × Option Nat) :=
  match env.deviceKinds.find? (fun kind => kind == "videoinput") with
  | none => .error "Could not get video device"
  | some _ => startCanvasRendering env frame

/-- State of the compositing loop between events: the `processCanvas` flag
and whether a worker-timer callback for `renderCanvas` is currently
scheduled or running ("in flight"). -/
structure LoopState where
  processCanvas : Bool
  pending : Bool
  deriving DecidableEq, Repr

/-- Events acting on the loop state: `timerFire` runs one complete
`renderCanvas` iteration if one is in flight, and `stopReq` is `stop()`
clearing the flag (line 73).  Nothing after `mounted` ever sets the flag
back to `true` (`startCanvasRendering` runs once, from `mounted`). -/
inductive LoopEv
  | timerFire
  | stopReq
  deriving DecidableEq, Repr

/-- One event step.  A `timerFire` with an in-flight callback runs
`renderCanvas` to completion: a throw ends the chain with no reschedule,
and otherwise the iteration reads `processCanvas` at its end and emits the
reschedule delay `renderCanvas` decided on (lines 155-157), which is what
keeps (or stops) the callback chain.  Returns the new state, the emitted
reschedule delays, and whether an iteration body ran. -/
def loopStep (env : Env) (frame : Frame) (s : LoopState) :
    LoopEv → LoopState × List Nat × Bool
  | .stopReq => ({ s with processCanvas := false }, [], false)
  | .timerFire =>
    if s.pending then
      match renderCanvas env frame s.processCanvas with
      | .error _ => ({ s with pending := false }, [], true)
      | .ok (_, d) => ({ s with pending := d.isSome }, d.toList, true)
    else (s, [], false)

/-- Run a sequence of events, collecting all emitted reschedule delays and
counting the iterations that ran. -/
def loopRun (env : Env) (frame : Frame) (s : LoopState) :
    List LoopEv → LoopState × List Nat × Nat
  | [] => (s, [], 0)
  | e :: es =>
    let (s1, ds1, ran) := loopStep env frame s e
    let (s2, ds2, c) := loopRun env frame s1 es
    (s2, ds1 ++ ds2, (if ran then 1 else 0) + c)

/-- A media-stream track; `stopped` records whether `track.stop()` has been
called on it. -/
structure Track where
  stopped : Bool
  deriving DecidableEq, Repr

/-- Effect of `track.stop()`. -/
def stopTrack (t : Track) : Track := { t with stopped := true }

/-- The fields of the `CanvasPublisher` component that `stop()` touches:
the publisher, the loop flag, and the tracks of the stream attached to the
hidden local video element. -/
structure PublisherComp where
  publisherDestroyed : Bool
  processCanvas : Bool
  localTracks : List Track
  deriving DecidableEq, Repr

/-- Method `stop()` (lines 71-75): destroys the publisher, clears `processCanvas`,
and calls `stop()` on every track of the stream of the local video
element. -/
def stop (comp : PublisherComp) : PublisherComp :=
  { publisherDestroyed := true
    processCanvas := false
    localTracks := comp.localTracks.map stopTrack }

end CanvasPublisher

namespace IndexPage

/-- The state of the index page: `session` is `null` until the connect
callback succeeds.  The `CanvasPublisher` component is created (via
`v-if="session"` in the template) exactly when `session` is non-null. -/
structure PageState where
  session : Option Nat
  deriving DecidableEq, Repr

/-- The callback passed to `session.connect` (src/pages/index.vue lines
37-43): on an error it raises a browser alert built from the error; on
success it stores the connected session in `this.session`.  Returns the new
page state and the alert message, if any; nothing is thrown and nothing is
retried in either branch. -/
def connectCallback (st : PageState) (sess : Nat) (err : Option String) :
    PageState × Option String :=
  match err with
  | some e => (st, some ("Could not connect session: " ++ e))
  | none => ({ st with session := some sess }, none)

/-- Whether the `CanvasPublisher` component exists (`v-if="session"`). -/
def canvasPublisherCreated (st : PageState) : Bool :=
  st.session.isSome

end IndexPage

namespace VideoRecorder

/-- The `Status` enum of src/pages/videoRecorder.vue (lines 42-46). -/
inductive Status
  | initial
  | started
  | stopped
  deriving DecidableEq, Repr

/-- Function `stopMediaStream` (lines 102-109): throws when the local video element
has no stream; otherwise calls `stop()` on every track of the stream and
sets `mediaStreamStatus` to `stopped`.  Returns the tracks and the new
status. -/
def stopMediaStream (stream : Option (List CanvasPublisher.Track)) :
    Except String (List CanvasPublisher.Track × Status) :=
  match stream with
  | none => .error "Could not get local stream to stop"
  | some tracks => .ok (tracks.map CanvasPublisher.stopTrack, Status.stopped)

/-- Function `renderCanvas` of the recorder page (lines 111-120): requires the 2D
context of the output canvas (throwing otherwise), draws the current video
frame, and then unconditionally reschedules itself with
`workerTimers.setTimeout(..., 1000 / 30)`.  The function consults no flag;
`mediaStreamStatus` is passed here only so that the independence of the
result from it can be stated.  Returns the reschedule delay in ms, or the
thrown error. -/
def renderCanvas (canvasContext : Bool) (mediaStreamStatus : Status) :
    Except String (Option ℚ) :=
  if canvasContext then .ok (some ((1000 : ℚ) / 30))
  else .error "Could not get output canvas context"

/-- The observable actions of `startRecording` (lines 134-170). -/
inductive RecEv
  | setStatus (s : Status)
  | recorderStart
  | scheduleStopTimeout (ms : Nat)
  | recorderStop
  | awaitStopAndTimeout
  | buildBlob (mime : String) (chunks : List Nat)
  | setDownloadName (name : String)
  deriving DecidableEq, Repr

/-- Function `startRecording` (lines 134-170), as its trace of observable actions in
runtime order.  `chunks` are the `dataavailable` payloads buffered in
`data` while the recorder runs.  The function sets `recordingStatus` to
`started`, starts the recorder, schedules `recorder.stop()` after a fixed
30000 ms timeout (lines 150-154), lets the timeout fire and stop the
recorder, awaits both the `stop` event of the recorder and that timeout
(lines 156-159), only then sets `recordingStatus` to `stopped`, builds a
`Blob` of type `video/webm` from all buffered chunks, and points the
download link at it with download name `RecordedVideo.webm` (lines
163-166). -/
def startRecording (chunks : List Nat) : List RecEv :=
  [.setStatus .started,
   .recorderStart,
   .scheduleStopTimeout 30000,
   .recorderStop,
   .awaitStopAndTimeout,
   .setStatus .stopped,
   .buildBlob "video/webm" chunks,
   .setDownloadName "RecordedVideo.webm"]

end VideoRecorder

/-! Helper theorems about the masking loop. -/

namespace CanvasPublisher

/-- Interaction of `Array.setD` (write that is a no-op when the index is out
of bounds, matching a JS typed-array store) with `Array.getD` (read that
yields a default when the index is out of bounds). -/
theorem getD_setD (a : Array Nat) (k j v d : Nat) :
    (a.setD k v).getD j d = if k = j ∧ k < a.size then v else a.getD j d := by
  unfold Array.setD
  split
  · rename_i hk
    unfold Array.getD
    split
    · rename_i hj
      rw [Array.get_eq_getElem, Array.getElem_set]
      by_cases hkj : k = j
      · subst hkj
        simp [hk]
      · simp only [hkj, false_and, if_false]
        have hj' : j < a.size := by simpa [Array.size_set] using hj
        simp [Array.getD, hj', hkj]
    · rename_i hj
      have hj' : ¬ j < a.size := by simpa [Array.size_set] using hj
      have : ¬ (k = j ∧ k < a.size) := by
        rintro ⟨rfl, hk'⟩; exact hj' hk'
      simp [this, Array.getD, hj']
  · rename_i hk
    have : ¬ (k = j ∧ k < a.size) := by rintro ⟨rfl, hk'⟩; exact hk hk'
    simp [this]

/-- The loop never changes the size of the pixel buffer. -/
theorem maskLoop_size (seg : Array Nat) :
    ∀ (n : Nat) (pixels : Array Nat) (i : Nat), pixels.size - i ≤ n →
    (maskLoop seg pixels i).size = pixels.size := by
  intro n
  induction n with
  | zero =>
    intro pixels i hn
    rw [maskLoop, dif_neg (by omega)]
  | succ n ih =>
    intro pixels i hn
    rw [maskLoop]
    by_cases h : i < pixels.size
    · rw [dif_pos h]
      have hsz : (if seg[i / 4]? = some 0 then pixels.setD (i + 3) 0 else pixels).size
          = pixels.size := by
        split <;> simp [Array.size_setD]
      rw [ih _ (i + 4) (by omega), hsz]
    · rw [dif_neg h]

/-- Bytes strictly below index `i + 3` are never touched by the loop when
it starts at index `i`. -/
theorem maskLoop_getD_lt (seg : Array Nat) :
    ∀ (n : Nat) (pixels : Array Nat) (i : Nat), pixels.size - i ≤ n →
    ∀ (j d : Nat), j < i + 3 →
    (maskLoop seg pixels i).getD j d = pixels.getD j d := by
  intro n
  induction n with
  | zero =>
    intro pixels i hn j d hj
    rw [maskLoop, dif_neg (by omega)]
  | succ n ih =>
    intro pixels i hn j d hj
    rw [maskLoop]
    by_cases h : i < pixels.size
    · rw [dif_pos h]
      have hsz : (if seg[i / 4]? = some 0 then pixels.setD (i + 3) 0 else pixels).size
          = pixels.size := by
        split <;> simp [Array.size_setD]
      rw [ih _ (i + 4) (by omega) j d (by omega)]
      split
      · rw [getD_setD, if_neg (by rintro ⟨hk, _⟩; omega)]
      · rfl
    · rw [dif_neg h]

/-- Completeness of the masking: if `j` is the alpha byte of a pixel that
the loop visits from index `i` on (so `i + 3 ≤ j`, `j` in the arithmetic
progression of alpha bytes, `j` in bounds) and that pixel is classified `0`
(background), the resulting byte `j` is `0`. -/
theorem maskLoop_getD_masked (seg : Array Nat) :
    ∀ (n : Nat) (pixels : Array Nat) (i : Nat), pixels.size - i ≤ n →
    ∀ (j d : Nat),
    i + 3 ≤ j → (j - 3) % 4 = i % 4 → j < pixels.size → seg[(j - 3) / 4]? = some 0 →
    (maskLoop seg pixels i).getD j d = 0 := by
  intro n
  induction n with
  | zero =>
    intro pixels i hn j d h1 h2 h3 h4
    omega
  | succ n ih =>
    intro pixels i hn j d h1 h2 h3 h4
    rw [maskLoop, dif_pos (by omega : i < pixels.size)]
    have hsz : (if seg[i / 4]? = some 0 then pixels.setD (i + 3) 0 else pixels).size
        = pixels.size := by
      split <;> simp [Array.size_setD]
    by_cases hji : j = i + 3
    · have hdiv : (j - 3) / 4 = i / 4 := by omega
      rw [hdiv] at h4
      rw [if_pos h4]
      rw [maskLoop_getD_lt seg ((pixels.setD (i + 3) 0).size - (i + 4)) _ (i + 4)
        (le_refl _) j d (by omega)]
      rw [getD_setD, if_pos ⟨hji.symm, by omega⟩]
    · exact ih _ (i + 4) (by omega) j d (by omega) (by omega) (by rw [hsz]; exact h3) h4

/-- Soundness of the masking: a byte `j` that is not the alpha byte of a
background-classified pixel visited from index `i` on is left unchanged. -/
theorem maskLoop_getD_unchanged (seg : Array Nat) :
    ∀ (n : Nat) (pixels : Array Nat) (i : Nat), pixels.size - i ≤ n →
    ∀ (j d : Nat),
    ¬ (i + 3 ≤ j ∧ (j - 3) % 4 = i % 4 ∧ j < pixels.size ∧ seg[(j - 3) / 4]? = some 0) →
    (maskLoop seg pixels i).getD j d = pixels.getD j d := by
  intro n
  induction n with
  | zero =>
    intro pixels i hn j d hnc
    rw [maskLoop, dif_neg (by omega)]
  | succ n ih =>
    intro pixels i hn j d hnc
    rw [maskLoop]
    by_cases h : i < pixels.size
    · rw [dif_pos h]
      have hsz : (if seg[i / 4]? = some 0 then pixels.setD (i + 3) 0 else pixels).size
          = pixels.size := by
        split <;> simp [Array.size_setD]
      rw [ih _ (i + 4) (by omega) j d (by
        rintro ⟨c1, c2, c3, c4⟩
        rw [hsz] at c3
        exact hnc ⟨by omega, by omega, c3, c4⟩)]
      by_cases hsegi : seg[i / 4]? = some 0
      · rw [if_pos hsegi, getD_setD, if_neg]
        rintro ⟨hk, hks⟩
        apply hnc
        refine ⟨by omega, by omega, by omega, ?_⟩
        rw [show (j - 3) / 4 = i / 4 by omega]
        exact hsegi
      · rw [if_neg hsegi]
    · rw [dif_neg h]

/-- Theorem about `maskPixels`: the alpha byte of every background-classified pixel inside
the buffer is `0` afterwards. -/
theorem maskPixels_getD_masked (seg : Array Nat) (pixels : Array Nat) (j d : Nat)
    (h3 : j % 4 = 3) (hj : j < pixels.size) (hseg : seg[(j - 3) / 4]? = some 0) :
    (maskPixels seg pixels).getD j d = 0 := by
  rw [maskPixels]
  exact maskLoop_getD_masked seg pixels.size pixels 0 (by omega) j d
    (by omega) (by omega) hj hseg

/-- Theorem about `maskPixels`: every byte that is not the alpha byte of a
background-classified pixel is unchanged. -/
theorem maskPixels_getD_unchanged (seg : Array Nat) (pixels : Array Nat) (j d : Nat)
    (h : ¬ (j % 4 = 3 ∧ j < pixels.size ∧ seg[(j - 3) / 4]? = some 0)) :
    (maskPixels seg pixels).getD j d = pixels.getD j d := by
  rw [maskPixels]
  apply maskLoop_getD_unchanged seg pixels.size pixels 0 (by omega) j d
  rintro ⟨c1, c2, c3, c4⟩
  exact h ⟨by omega, c3, c4⟩

/-- The index trace of the loop over a buffer of `4 * n` bytes, started at
counter value `4 * k`, is `4 * k, 4 * (k + 1), ..., 4 * (n - 1)`. -/
theorem maskLoopIdxs_eq (n : Nat) :
    ∀ (m k : Nat), n - k ≤ m →
    maskLoopIdxs (4 * n) (4 * k) = (List.range' k (n - k)).map (fun p => 4 * p) := by
  intro m
  induction m with
  | zero =>
    intro k hk
    rw [maskLoopIdxs, dif_neg (by omega), show n - k = 0 by omega]
    rfl
  | succ m ih =>
    intro k hk
    by_cases h : k < n
    · rw [maskLoopIdxs, dif_pos (by omega), show (4 * k + 4 : Nat) = 4 * (k + 1) by ring,
        ih (k + 1) (by omega), show n - k = (n - (k + 1)) + 1 by omega, List.range'_succ]
      simp
    · rw [maskLoopIdxs, dif_neg (by omega), show n - k = 0 by omega]
      rfl

/-- The reschedule delay `renderCanvas` returns on success is decided by the
`processCanvas` flag read at the end of the iteration: `30` ms when set,
none otherwise. -/
theorem renderCanvas_delay (env : Env) (frame : Frame) (pc : Bool)
    (r : List OutputDraw × Option Nat) (h : renderCanvas env frame pc = .ok r) :
    r.2 = if pc then some 30 else none := by
  unfold renderCanvas at h
  split at h
  · cases h
    rfl
  · cases h

/-- Every reschedule delay a loop step ever emits is the fixed 30 ms. -/
theorem loopStep_delay_30 (env : Env) (frame : Frame) (s : LoopState)
    (e : LoopEv) (d : Nat) (hd : d ∈ (loopStep env frame s e).2.1) : d = 30 := by
  cases e with
  | stopReq => simp [loopStep] at hd
  | timerFire =>
    unfold loopStep at hd
    by_cases hp : s.pending
    · rw [if_pos hp] at hd
      cases hr : renderCanvas env frame s.processCanvas with
      | error msg =>
        rw [hr] at hd
        simp at hd
      | ok r =>
        obtain ⟨draws, dly⟩ := r
        rw [hr] at hd
        have hdly := renderCanvas_delay env frame s.processCanvas (draws, dly) hr
        simp only at hd hdly
        rw [hdly] at hd
        by_cases hpc : s.processCanvas
        · rw [if_pos hpc] at hd
          simpa using hd
        · rw [if_neg hpc] at hd
          simp at hd
    · rw [if_neg hp] at hd
      simp at hd

/-- From any state whose `processCanvas` flag is `false`, no subsequent
event sequence emits a reschedule, and at most one (the in-flight)
iteration still runs. -/
theorem loopRun_stopped (env : Env) (frame : Frame) :
    ∀ (evs : List LoopEv) (s : LoopState), s.processCanvas = false →
    (loopRun env frame s evs).2.1 = []
    ∧ (loopRun env frame s evs).2.2 ≤ (if s.pending then 1 else 0) := by
  intro evs
  induction evs with
  | nil =>
    intro s h
    constructor
    · rfl
    · simp [loopRun]
  | cons e es ih =>
    intro s h
    cases e with
    | stopReq =>
      have hstep : loopStep env frame s .stopReq = ({ s with processCanvas := false }, [], false) := rfl
      have hrec := ih { s with processCanvas := false } rfl
      simp only [loopRun, hstep] at *
      constructor
      · simpa using hrec.1
      · simpa using hrec.2
    | timerFire =>
      by_cases hp : s.pending
      · cases hr : renderCanvas env frame s.processCanvas with
        | error msg =>
          have hstep : loopStep env frame s .timerFire = ({ s with pending := false }, [], true) := by
            unfold loopStep
            rw [if_pos hp, hr]
          obtain ⟨hrec1, hrec2⟩ := ih { s with pending := false } h
          simp only [loopRun, hstep]
          constructor
          · simpa using hrec1
          · have h0 : (if ({ s with pending := false } : LoopState).pending then 1 else 0) = 0 := rfl
            rw [h0] at hrec2
            rw [if_pos hp]
            simpa using hrec2
        | ok r =>
          obtain ⟨draws, dly⟩ := r
          have hdly := renderCanvas_delay env frame s.processCanvas (draws, dly) hr
          rw [h] at hdly
          simp only [Bool.false_eq_true, if_false] at hdly
          have hstep : loopStep env frame s .timerFire
              = ({ s with pending := false }, [], true) := by
            unfold loopStep
            rw [if_pos hp, hr]
            rw [show dly = none from hdly]
            rfl
          obtain ⟨hrec1, hrec2⟩ := ih { s with pending := false } h
          simp only [loopRun, hstep]
          constructor
          · simpa using hrec1
          · have h0 : (if ({ s with pending := false } : LoopState).pending then 1 else 0) = 0 := rfl
            rw [h0] at hrec2
            rw [if_pos hp]
            simpa using hrec2
      · have hstep : loopStep env frame s .timerFire = (s, [], false) := by
          unfold loopStep
          rw [if_neg hp]
        have hrec := ih s h
        simp only [loopRun, hstep]
        constructor
        · simpa using hrec.1
        · simpa using hrec.2

end CanvasPublisher

/-! The claims. -/

/-- C1: in every iteration of the masking pass of the compositing loop over
the RGBA pixel buffer, every pixel `p` whose entry in the segmentation
classification array equals `0` (classified as background) has its alpha
byte (byte `4 * p + 3`) set to zero. -/
theorem c1_mask_zeroes_background_alpha (seg pixels : Array Nat) (p d : Nat)
    (hp : 4 * p + 3 < pixels.size) (hseg : seg[p]? = some 0) :
    (CanvasPublisher.maskPixels seg pixels).getD (4 * p + 3) d = 0 := by
  apply CanvasPublisher.maskPixels_getD_masked seg pixels _ d (by omega) hp
  rw [show (4 * p + 3 - 3) / 4 = p by omega]
  exact hseg

/-- Witness for C1 at a concrete frame: two pixels, pixel `0` classified
background. -/
theorem c1_mask_zeroes_background_alpha_witness :
    4 * 0 + 3 < (#[10, 20, 30, 40, 50, 60, 70, 80] : Array Nat).size
    ∧ (#[0, 1] : Array Nat)[0]? = some 0
    ∧ (CanvasPublisher.maskPixels #[0, 1] #[10, 20, 30, 40, 50, 60, 70, 80]).getD
        (4 * 0 + 3) 0 = 0 :=
  ⟨by decide, by decide,
   c1_mask_zeroes_background_alpha #[0, 1] #[10, 20, 30, 40, 50, 60, 70, 80] 0 0
     (by decide) (by decide)⟩

/-- C2: once `processCanvas` is `false` (as set by `stop()`), the
compositing loop never reschedules itself again: along any subsequent event
sequence no reschedule delay is emitted and at most the one in-flight
iteration still runs; moreover every reschedule any loop step ever emits
uses the fixed 30 ms delay, because `renderCanvas` reads the flag at the
end of each iteration and reschedules with delay 30 exactly when it is
set. -/
theorem c2_stop_halts_rescheduling (env : CanvasPublisher.Env)
    (frame : CanvasPublisher.Frame) (s : CanvasPublisher.LoopState)
    (evs : List CanvasPublisher.LoopEv) (h : s.processCanvas = false) :
    (CanvasPublisher.loopRun env frame s evs).2.1 = []
    ∧ (CanvasPublisher.loopRun env frame s evs).2.2 ≤ (if s.pending then 1 else 0)
    ∧ (∀ (s2 : CanvasPublisher.LoopState) (e : CanvasPublisher.LoopEv) (d : Nat),
        d ∈ (CanvasPublisher.loopStep env frame s2 e).2.1 → d = 30)
    ∧ (∀ (pc : Bool) (r : List CanvasPublisher.OutputDraw × Option Nat),
        CanvasPublisher.renderCanvas env frame pc = .ok r →
        r.2 = if pc then some 30 else none) :=
  ⟨(CanvasPublisher.loopRun_stopped env frame evs s h).1,
   (CanvasPublisher.loopRun_stopped env frame evs s h).2,
   fun s2 e d hd => CanvasPublisher.loopStep_delay_30 env frame s2 e d hd,
   fun pc r hr => CanvasPublisher.renderCanvas_delay env frame pc r hr⟩

/-- Witness for C2 at a concrete stopped state with one in-flight
iteration and two timer fires. -/
theorem c2_stop_halts_rescheduling_witness :
    (⟨false, true⟩ : CanvasPublisher.LoopState).processCanvas = false
    ∧ (CanvasPublisher.loopRun ⟨["videoinput"], true, true, true⟩ ⟨#[1, 2, 3, 4], #[0]⟩
        ⟨false, true⟩
        [CanvasPublisher.LoopEv.timerFire, CanvasPublisher.LoopEv.timerFire]).2.1 = []
    ∧ (CanvasPublisher.loopRun ⟨["videoinput"], true, true, true⟩ ⟨#[1, 2, 3, 4], #[0]⟩
        ⟨false, true⟩
        [CanvasPublisher.LoopEv.timerFire, CanvasPublisher.LoopEv.timerFire]).2.2
        ≤ (if (⟨false, true⟩ : CanvasPublisher.LoopState).pending then 1 else 0) :=
  ⟨rfl,
   (c2_stop_halts_rescheduling _ _ _ _ rfl).1,
   (c2_stop_halts_rescheduling _ _ _ _ rfl).2.1⟩

/-- C3: the masking pass mutates only alpha bytes of the pixel buffer: the
buffer keeps its size, every byte whose index is not `3 mod 4` (the R, G
and B bytes of every pixel) is unchanged, and the alpha byte of every pixel
whose classification entry is not `0` (foreground) is also unchanged. -/
theorem c3_mask_touches_only_background_alpha (seg pixels : Array Nat) (d : Nat) :
    (CanvasPublisher.maskPixels seg pixels).size = pixels.size
    ∧ (∀ j, j % 4 ≠ 3 →
        (CanvasPublisher.maskPixels seg pixels).getD j d = pixels.getD j d)
    ∧ (∀ p, ¬ seg[p]? = some 0 →
        (CanvasPublisher.maskPixels seg pixels).getD (4 * p + 3) d
          = pixels.getD (4 * p + 3) d) := by
  refine ⟨?_, ?_, ?_⟩
  · rw [CanvasPublisher.maskPixels]
    exact CanvasPublisher.maskLoop_size seg pixels.size pixels 0 (by omega)
  · intro j hj
    apply CanvasPublisher.maskPixels_getD_unchanged
    rintro ⟨h1, _, _⟩
    exact hj h1
  · intro p hp
    apply CanvasPublisher.maskPixels_getD_unchanged
    rintro ⟨_, _, h3⟩
    rw [show (4 * p + 3 - 3) / 4 = p by omega] at h3
    exact hp h3

/-- Witness for C3 at a concrete frame: one foreground pixel, whose green
byte and alpha byte are untouched. -/
theorem c3_mask_touches_only_background_alpha_witness :
    (CanvasPublisher.maskPixels #[1] #[9, 9, 9, 9]).getD 1 0 = 9
    ∧ (CanvasPublisher.maskPixels #[1] #[9, 9, 9, 9]).getD (4 * 0 + 3) 0 = 9 :=
  ⟨((c3_mask_touches_only_background_alpha #[1] #[9, 9, 9, 9] 0).2.1 1
      (by decide)).trans (by decide),
   ((c3_mask_touches_only_background_alpha #[1] #[9, 9, 9, 9] 0).2.2 0
      (by decide)).trans (by decide)⟩

/-- C4: initialization of the canvas publisher is uniformly fail-fast:
a missing video-input device, a missing output canvas 2D context, a failed
canvas-context clone, and a missing background image each make the
corresponding function return the thrown error, which aborts the
initialization / render chain; no branch retries or recovers. -/
theorem c4_init_chain_fail_fast (env : CanvasPublisher.Env)
    (frame : CanvasPublisher.Frame) (pc : Bool) :
    (env.deviceKinds.find? (fun kind => kind == "videoinput") = none →
      CanvasPublisher.initCanvasPublisher env frame = .error "Could not get video device")
    ∧ (env.canvasContext = false →
      CanvasPublisher.startCanvasRendering env frame
        = .error "Could not get canvas context to start canvas rendering")
    ∧ (env.canvasContext = true → env.cloneContext = false →
      CanvasPublisher.startCanvasRendering env frame
        = .error "Unable to clone canvas context")
    ∧ (env.backgroundImage = false →
      CanvasPublisher.renderCanvas env frame pc = .error "Unable to get background image")
    ∧ (∀ k, env.deviceKinds.find? (fun kind => kind == "videoinput") = some k →
        env.canvasContext = true → env.cloneContext = true → env.backgroundImage = false →
        CanvasPublisher.initCanvasPublisher env frame
          = .error "Unable to get background image") := by
  refine ⟨?_, ?_, ?_, ?_, ?_⟩
  · intro h
    simp [CanvasPublisher.initCanvasPublisher, h]
  · intro h
    simp [CanvasPublisher.startCanvasRendering, h]
  · intro h1 h2
    simp [CanvasPublisher.startCanvasRendering, h1, h2]
  · intro h
    simp [CanvasPublisher.renderCanvas, h]
  · intro k hk h1 h2 h3
    simp [CanvasPublisher.initCanvasPublisher, hk, CanvasPublisher.startCanvasRendering,
      h1, h2, CanvasPublisher.renderCanvas, h3]

/-- Witness for C4: each failing environment produces its error. -/
theorem c4_init_chain_fail_fast_witness :
    ((⟨[], false, false, false⟩ : CanvasPublisher.Env).deviceKinds.find?
        (fun kind => kind == "videoinput") = none
      ∧ CanvasPublisher.initCanvasPublisher ⟨[], false, false, false⟩ ⟨#[], #[]⟩
        = .error "Could not get video device")
    ∧ CanvasPublisher.startCanvasRendering ⟨["videoinput"], false, true, true⟩ ⟨#[], #[]⟩
        = .error "Could not get canvas context to start canvas rendering"
    ∧ CanvasPublisher.startCanvasRendering ⟨["videoinput"], true, false, true⟩ ⟨#[], #[]⟩
        = .error "Unable to clone canvas context"
    ∧ CanvasPublisher.renderCanvas ⟨["videoinput"], true, true, false⟩ ⟨#[], #[]⟩ true
      = .error "Unable to get background image"
    ∧ CanvasPublisher.initCanvasPublisher ⟨["videoinput"], true, true, false⟩ ⟨#[], #[]⟩
        = .error "Unable to get background image" :=
  ⟨⟨rfl, (c4_init_chain_fail_fast ⟨[], false, false, false⟩ ⟨#[], #[]⟩ true).1 rfl⟩,
   (c4_init_chain_fail_fast ⟨["videoinput"], false, true, true⟩ ⟨#[], #[]⟩ true).2.1 rfl,
   (c4_init_chain_fail_fast ⟨["videoinput"], true, false, true⟩ ⟨#[], #[]⟩ true).2.2.1 rfl rfl,
   (c4_init_chain_fail_fast ⟨["videoinput"], true, true, false⟩ ⟨#[], #[]⟩ true).2.2.2.1 rfl,
   (c4_init_chain_fail_fast ⟨["videoinput"], true, true, false⟩ ⟨#[], #[]⟩ true).2.2.2.2
     "videoinput" rfl rfl rfl rfl⟩

/-- C5: in each compositing iteration with the background image present,
the output draws are exactly: first the static background image, second the
masked (background-transparent) frame, so the composited output layers the
foreground over the background image. -/
theorem c5_background_drawn_before_masked_frame (env : CanvasPublisher.Env)
    (frame : CanvasPublisher.Frame) (pc : Bool) (hbg : env.backgroundImage = true) :
    CanvasPublisher.renderCanvas env frame pc =
      .ok ([CanvasPublisher.OutputDraw.backgroundImage,
            CanvasPublisher.OutputDraw.maskedFrame
              (CanvasPublisher.maskPixels frame.segData frame.pixels)],
        if pc then some 30 else none) := by
  simp [CanvasPublisher.renderCanvas, hbg]

/-- Witness for C5 at a concrete environment and frame. -/
theorem c5_background_drawn_before_masked_frame_witness :
    (⟨["videoinput"], true, true, true⟩ : CanvasPublisher.Env).backgroundImage = true
    ∧ CanvasPublisher.renderCanvas ⟨["videoinput"], true, true, true⟩ ⟨#[1, 2, 3, 4], #[0]⟩ true =
        .ok ([CanvasPublisher.OutputDraw.backgroundImage,
              CanvasPublisher.OutputDraw.maskedFrame
                (CanvasPublisher.maskPixels #[0] #[1, 2, 3, 4])],
          if true then some 30 else none) :=
  ⟨rfl, c5_background_drawn_before_masked_frame _ ⟨#[1, 2, 3, 4], #[0]⟩ true rfl⟩

/-- C6: under the precondition that the classification array has at least
one entry per pixel (at least `pixels.size / 4 = n` entries for an RGBA
buffer of size `4 * n`), the linear scan of the masking pass is memory-safe
and exhaustive: the loop counter runs over multiples of 4 (so `i / 4` is
always a whole pixel number), every pixel is visited exactly once (the
visited pixel numbers are exactly `0, ..., n - 1` in order), every read of
the classification array at `i / 4` is in bounds, and every written byte
`i + 3` is in bounds. -/
theorem c6_mask_scan_safe_exhaustive (seg pixels : Array Nat) (n : Nat)
    (hp : pixels.size = 4 * n) (hs : n ≤ seg.size) :
    (CanvasPublisher.maskLoopIdxs pixels.size 0).map (fun i => i / 4) = List.range n
    ∧ ∀ i ∈ CanvasPublisher.maskLoopIdxs pixels.size 0,
        i % 4 = 0 ∧ i / 4 < seg.size ∧ i + 3 < pixels.size := by
  have hidx : CanvasPublisher.maskLoopIdxs pixels.size 0
      = (List.range' 0 n).map (fun p => 4 * p) := by
    have h := CanvasPublisher.maskLoopIdxs_eq n n 0 (by omega)
    rw [hp]
    simpa using h
  constructor
  · rw [hidx, List.map_map, List.range_eq_range']
    have hcongr : ∀ a ∈ List.range' 0 n, ((fun i => i / 4) ∘ fun p => 4 * p) a = id a := by
      intro a _
      simp
    rw [List.map_congr_left hcongr, List.map_id]
  · intro i hi
    rw [hidx] at hi
    obtain ⟨p, hpmem, rfl⟩ := List.mem_map.mp hi
    rw [List.mem_range'_1] at hpmem
    refine ⟨by omega, ?_, by omega⟩
    have h4 : 4 * p / 4 = p := by omega
    rw [h4]
    omega

/-- Witness for C6: a buffer of two RGBA pixels with a two-entry
classification array. -/
theorem c6_mask_scan_safe_exhaustive_witness :
    (#[9, 9, 9, 9, 9, 9, 9, 9] : Array Nat).size = 4 * 2
    ∧ 2 ≤ (#[0, 1] : Array Nat).size
    ∧ (CanvasPublisher.maskLoopIdxs (#[9, 9, 9, 9, 9, 9, 9, 9] : Array Nat).size 0).map
        (fun i => i / 4) = List.range 2 :=
  ⟨by decide, by decide,
   (c6_mask_scan_safe_exhaustive #[0, 1] #[9, 9, 9, 9, 9, 9, 9, 9] 2 (by decide) (by decide)).1⟩

/-- C7: stopping releases the camera: `stop()` of the publisher stops every
track of the stream of the local video element (and clears the loop flag),
and `stopMediaStream` of the recorder page throws when there is no stream,
and otherwise stops every track of its stream. -/
theorem c7_stop_releases_all_tracks (comp : CanvasPublisher.PublisherComp)
    (tracks : List CanvasPublisher.Track) :
    (∀ t ∈ (CanvasPublisher.stop comp).localTracks, t.stopped = true)
    ∧ (CanvasPublisher.stop comp).processCanvas = false
    ∧ VideoRecorder.stopMediaStream none = .error "Could not get local stream to stop"
    ∧ VideoRecorder.stopMediaStream (some tracks)
        = .ok (tracks.map CanvasPublisher.stopTrack, VideoRecorder.Status.stopped)
    ∧ (∀ t ∈ tracks.map CanvasPublisher.stopTrack, t.stopped = true) := by
  refine ⟨?_, rfl, rfl, rfl, ?_⟩
  · intro t ht
    simp only [CanvasPublisher.stop] at ht
    obtain ⟨u, _, rfl⟩ := List.mem_map.mp ht
    rfl
  · intro t ht
    obtain ⟨u, _, rfl⟩ := List.mem_map.mp ht
    rfl

/-- Witness for C7 at a one-track stream. -/
theorem c7_stop_releases_all_tracks_witness :
    VideoRecorder.stopMediaStream (some [⟨false⟩])
      = .ok ([⟨false⟩].map CanvasPublisher.stopTrack, VideoRecorder.Status.stopped) :=
  (c7_stop_releases_all_tracks ⟨false, true, []⟩ [⟨false⟩]).2.2.2.1

/-- C8: a session-connect failure produces a user-facing alert rather than
a thrown error, is not retried, and leaves the page state unchanged:
`this.session` is assigned only in the success branch, so on error it stays
`null` and the `CanvasPublisher` component is never created. -/
theorem c8_connect_failure_alert_only (st : IndexPage.PageState) (sess : Nat) (e : String) :
    IndexPage.connectCallback st sess (some e)
      = (st, some ("Could not connect session: " ++ e))
    ∧ (IndexPage.connectCallback st sess (some e)).1.session = st.session
    ∧ (st.session = none →
        IndexPage.canvasPublisherCreated (IndexPage.connectCallback st sess (some e)).1 = false)
    ∧ (IndexPage.connectCallback st sess none).1.session = some sess := by
  refine ⟨rfl, rfl, ?_, rfl⟩
  intro h
  simp [IndexPage.connectCallback, IndexPage.canvasPublisherCreated, h]

/-- Witness for C8: a fresh page whose connect fails keeps `session` null
and creates no publisher component. -/
theorem c8_connect_failure_alert_only_witness :
    (⟨none⟩ : IndexPage.PageState).session = none
    ∧ IndexPage.canvasPublisherCreated
        (IndexPage.connectCallback ⟨none⟩ 7 (some "boom")).1 = false :=
  ⟨rfl, (c8_connect_failure_alert_only ⟨none⟩ 7 "boom").2.2.1 rfl⟩

/-- C9: the canvas-drawing loop of the recorder page has no stop condition:
whenever `renderCanvas` of the recorder page runs with the canvas context
available, it reschedules itself with a `1000 / 30` ms worker timer,
independently of `mediaStreamStatus` — in particular also after
`stopMediaStream` has set the status to `stopped`. -/
theorem c9_recorder_loop_unconditional_reschedule (st st2 : VideoRecorder.Status) :
    VideoRecorder.renderCanvas true st = .ok (some ((1000 : ℚ) / 30))
    ∧ VideoRecorder.renderCanvas true st = VideoRecorder.renderCanvas true st2
    ∧ VideoRecorder.renderCanvas true VideoRecorder.Status.stopped
        = .ok (some ((1000 : ℚ) / 30)) :=
  ⟨rfl, rfl, rfl⟩

/-- C10: every recording stops after a fixed 30000 ms timeout; only after
both the timeout and the stop event of the recorder does
`recordingStatus` become `stopped`, and the download link is then set to a
`video/webm` blob built from all buffered chunks with download name
`RecordedVideo.webm`. -/
theorem c10_recording_stops_after_fixed_timeout (chunks : List Nat) :
    VideoRecorder.RecEv.scheduleStopTimeout 30000 ∈ VideoRecorder.startRecording chunks
    ∧ (∀ ms, VideoRecorder.RecEv.scheduleStopTimeout ms ∈ VideoRecorder.startRecording chunks
        → ms = 30000)
    ∧ (∃ pre post,
        VideoRecorder.startRecording chunks
          = pre ++ VideoRecorder.RecEv.setStatus VideoRecorder.Status.stopped :: post
        ∧ VideoRecorder.RecEv.awaitStopAndTimeout ∈ pre
        ∧ VideoRecorder.RecEv.recorderStop ∈ pre
        ∧ VideoRecorder.RecEv.setStatus VideoRecorder.Status.stopped ∉ pre
        ∧ VideoRecorder.RecEv.buildBlob "video/webm" chunks ∈ post
        ∧ VideoRecorder.RecEv.setDownloadName "RecordedVideo.webm" ∈ post)
    ∧ (∀ mime cs, VideoRecorder.RecEv.buildBlob mime cs ∈ VideoRecorder.startRecording chunks
        → mime = "video/webm" ∧ cs = chunks) := by
  refine ⟨?_, ?_, ?_, ?_⟩
  · simp [VideoRecorder.startRecording]
  · intro ms h
    simp [VideoRecorder.startRecording] at h
    exact h
  · refine ⟨[VideoRecorder.RecEv.setStatus VideoRecorder.Status.started,
      VideoRecorder.RecEv.recorderStart,
      VideoRecorder.RecEv.scheduleStopTimeout 30000,
      VideoRecorder.RecEv.recorderStop,
      VideoRecorder.RecEv.awaitStopAndTimeout],
      [VideoRecorder.RecEv.buildBlob "video/webm" chunks,
       VideoRecorder.RecEv.setDownloadName "RecordedVideo.webm"], rfl, ?_, ?_, ?_, ?_, ?_⟩
    · simp
    · simp
    · decide
    · simp
    · simp
  · intro mime cs h
    simp [VideoRecorder.startRecording] at h
    exact h

end NuxtBackgroundRemoval
